import Mathlib

/-
  Verification of the wedding-album-studio layout/composition core.

  Shallow embedding conventions:
  * JavaScript numbers are modelled as exact rationals (ℚ); the geometric and
    arithmetic claims under study are algebraic identities, so float rounding
    is not modelled.
  * `Math.round` (round half toward +∞) is modelled as `fun x => ⌊x + 1/2⌋`.
  * `uuidv4()` is modelled as an injected id source `fresh : ℕ → String`;
    no claim depends on the id values.
  * `Array.prototype.sort` with a comparator is stable (ES2019); it is
    modelled by a stable insertion sort on the comparator key.
  * The bounded `for` loops of the source are modelled by structural
    recursion with a fuel argument that is always large enough.

  Sources embedded: src/src/lib/layouts.ts, the album type/unit-conversion
  module, and the export dialog compositor loop.
-/

namespace AlbumStudio

/-- A frame rectangle as produced by a layout template: the source type
`Omit<PhotoFrame, 'id' | 'photoId'>` from layouts.ts. -/
structure FrameRect where
  x : ℚ
  y : ℚ
  width : ℚ
  height : ℚ
  rotation : ℚ
  scaleX : ℚ
  scaleY : ℚ
  imageOffsetX : ℚ
  imageOffsetY : ℚ
  imageScale : ℚ
  locked : Bool
  zIndex : ℤ
  brightness : ℚ
  contrast : ℚ
  temperature : ℚ
  vibrance : ℚ
  deriving DecidableEq

/-- Every template literal in layouts.ts fixes rotation 0, scaleX/scaleY 1,
imageOffsetX/imageOffsetY 0, imageScale 1, locked false and all four tone
adjustments 0, varying only x, y, width, height and zIndex. -/
def templateRect (x y width height : ℚ) (zIndex : ℤ) : FrameRect :=
  { x := x, y := y, width := width, height := height, rotation := 0,
    scaleX := 1, scaleY := 1, imageOffsetX := 0, imageOffsetY := 0,
    imageScale := 1, locked := false, zIndex := zIndex, brightness := 0,
    contrast := 0, temperature := 0, vibrance := 0 }

/-- LayoutTemplate interface from layouts.ts. -/
structure LayoutTemplate where
  id : String
  name : String
  photoCount : ℕ
  generateFrames : ℚ → ℚ → ℚ → ℚ → List FrameRect

/-- const MARGIN = 60 (default margin in pixels). -/
def MARGIN : ℚ := 60

/-- const SPACING = 20 (spacing between photos). -/
def SPACING : ℚ := 20

/-- Template 'single-full': one frame covering the whole canvas. -/
def singleFull : LayoutTemplate :=
  { id := "single-full", name := "Single Full Bleed", photoCount := 1,
    generateFrames := fun w h _gutter _margin => [templateRect 0 0 w h 0] }

/-- Template 'two-side-by-side'. -/
def twoSideBySide : LayoutTemplate :=
  { id := "two-side-by-side", name := "Two Side by Side", photoCount := 2,
    generateFrames := fun w h gutter margin =>
      let halfWidth := (w - gutter) / 2 - margin
      let frameHeight := h - margin * 2
      [templateRect margin margin (halfWidth - SPACING / 2) frameHeight 0,
       templateRect (w / 2 + gutter / 2 + SPACING / 2) margin
         (halfWidth - SPACING / 2) frameHeight 1] }

/-- Template 'three-one-two' ("One Large + Two Small"). -/
def threeOneTwo : LayoutTemplate :=
  { id := "three-one-two", name := "One Large + Two Small", photoCount := 3,
    generateFrames := fun w h gutter margin =>
      let leftWidth := (w - gutter) / 2 - margin
      let rightWidth := (w - gutter) / 2 - margin
      let smallHeight := (h - margin * 2 - SPACING) / 2
      [templateRect margin margin (leftWidth - SPACING / 2) (h - margin * 2) 0,
       templateRect (w / 2 + gutter / 2 + SPACING / 2) margin
         (rightWidth - SPACING / 2) smallHeight 1,
       templateRect (w / 2 + gutter / 2 + SPACING / 2)
         (margin + smallHeight + SPACING) (rightWidth - SPACING / 2) smallHeight 2] }

/-- Template 'four-grid'. -/
def fourGrid : LayoutTemplate :=
  { id := "four-grid", name := "Four Grid", photoCount := 4,
    generateFrames := fun w h gutter margin =>
      let halfWidth := (w - gutter) / 2 - margin - SPACING / 2
      let halfHeight := (h - margin * 2 - SPACING) / 2
      [templateRect margin margin (halfWidth / 2 - SPACING / 4) halfHeight 0,
       templateRect (margin + halfWidth / 2 + SPACING / 2) margin
         (halfWidth / 2 - SPACING / 4) halfHeight 1,
       templateRect (w / 2 + gutter / 2 + SPACING / 2) margin
         (halfWidth / 2 - SPACING / 4) halfHeight 2,
       templateRect (w / 2 + gutter / 2 + SPACING / 2 + halfWidth / 2 + SPACING / 2)
         margin (halfWidth / 2 - SPACING / 4) halfHeight 3] }

/-- Template 'six-mosaic'. -/
def sixMosaic : LayoutTemplate :=
  { id := "six-mosaic", name := "Six Mosaic", photoCount := 6,
    generateFrames := fun w h gutter margin =>
      let leftWidth := (w - gutter) / 2 - margin
      let rightWidth := (w - gutter) / 2 - margin
      let thirdHeight := (h - margin * 2 - SPACING * 2) / 3
      let halfHeight := (h - margin * 2 - SPACING) / 2
      [templateRect margin margin (leftWidth / 2 - SPACING / 2) thirdHeight 0,
       templateRect margin (margin + thirdHeight + SPACING)
         (leftWidth / 2 - SPACING / 2) thirdHeight 1,
       templateRect margin (margin + thirdHeight * 2 + SPACING * 2)
         (leftWidth / 2 - SPACING / 2) thirdHeight 2,
       templateRect (margin + leftWidth / 2 + SPACING / 2) margin
         (leftWidth / 2 - SPACING) (h - margin * 2) 3,
       templateRect (w / 2 + gutter / 2 + SPACING / 2) margin
         (rightWidth - SPACING / 2) halfHeight 4,
       templateRect (w / 2 + gutter / 2 + SPACING / 2)
         (margin + halfHeight + SPACING) (rightWidth - SPACING / 2) halfHeight 5] }

/-- export const LAYOUT_TEMPLATES, in catalogue order. -/
def LAYOUT_TEMPLATES : List LayoutTemplate :=
  [singleFull, twoSideBySide, threeOneTwo, fourGrid, sixMosaic]

instance : Inhabited LayoutTemplate := ⟨singleFull⟩

/-- Stable insertion used to model the stable `Array.prototype.sort` with
comparator `|a.photoCount - count| - |b.photoCount - count|`: an element is
inserted after every already-placed element whose key is less than or equal
to its own key, preserving the relative order of equal keys. -/
def insertByKey (key : LayoutTemplate → ℕ) (x : LayoutTemplate) :
    List LayoutTemplate → List LayoutTemplate
  | [] => [x]
  | y :: ys => if key x < key y then x :: y :: ys else y :: insertByKey key x ys

/-- Stable sort by key, processing the list left to right. -/
def sortByKey (key : LayoutTemplate → ℕ) (l : List LayoutTemplate) :
    List LayoutTemplate :=
  l.foldl (fun acc x => insertByKey key x acc) []

/-- getLayoutForPhotoCount from layouts.ts: exact match on photoCount if one
exists, else head of the catalogue stably sorted by distance to `count`. -/
def getLayoutForPhotoCount (count : ℤ) : LayoutTemplate :=
  match LAYOUT_TEMPLATES.find? (fun t => ((t.photoCount : ℤ) == count)) with
  | some exact => exact
  | none =>
    (sortByKey (fun t => ((t.photoCount : ℤ) - count).natAbs) LAYOUT_TEMPLATES).headI

/-- Photo metadata record from the album types module. -/
structure Photo where
  id : String
  albumId : String
  filename : String
  width : ℚ
  height : ℚ
  thumbnailUrl : String
  createdAt : String

/-- A full PhotoFrame: a FrameRect together with its id and photoId. -/
structure PhotoFrame where
  id : String
  photoId : String
  x : ℚ
  y : ℚ
  width : ℚ
  height : ℚ
  rotation : ℚ
  scaleX : ℚ
  scaleY : ℚ
  imageOffsetX : ℚ
  imageOffsetY : ℚ
  imageScale : ℚ
  locked : Bool
  zIndex : ℤ
  brightness : ℚ
  contrast : ℚ
  temperature : ℚ
  vibrance : ℚ
  deriving DecidableEq

/-- The object spread `{ ...frame, id, photoId }` used in generateFramesForLayout. -/
def FrameRect.withIds (r : FrameRect) (id photoId : String) : PhotoFrame :=
  { id := id, photoId := photoId, x := r.x, y := r.y, width := r.width,
    height := r.height, rotation := r.rotation, scaleX := r.scaleX,
    scaleY := r.scaleY, imageOffsetX := r.imageOffsetX,
    imageOffsetY := r.imageOffsetY, imageScale := r.imageScale,
    locked := r.locked, zIndex := r.zIndex, brightness := r.brightness,
    contrast := r.contrast, temperature := r.temperature, vibrance := r.vibrance }

/-- JavaScript `arr.map((x, index) => f(index, x))`, with explicit start index. -/
def mapWithIndexFrom (f : ℕ → FrameRect → PhotoFrame) (i : ℕ) :
    List FrameRect → List PhotoFrame
  | [] => []
  | r :: rs => f i r :: mapWithIndexFrom f (i + 1) rs

/-- generateFramesForLayout from layouts.ts: the template rectangles are
sliced to `photos.length` and zipped with the photos; `photos[index]?.id || ''`
is modelled by `getD ""` on the optional lookup (for a present photo the JS
`|| ''` is the identity on its id, since `'' || ''` is `''`). -/
def generateFramesForLayout (fresh : ℕ → String) (template : LayoutTemplate)
    (photos : List Photo) (canvasWidth canvasHeight gutterWidth margin : ℚ) :
    List PhotoFrame :=
  let templateFrames := template.generateFrames canvasWidth canvasHeight gutterWidth margin
  mapWithIndexFrom
    (fun index frame =>
      frame.withIds (fresh index) (((photos.get? index).map Photo.id).getD ""))
    0 (templateFrames.take photos.length)

/-- Named physical page size. -/
structure AlbumSize where
  id : String
  name : String
  width : ℚ
  height : ℚ
  isPreset : Bool

/-- Gutter settings: enabled flag plus width in inches. -/
structure GutterSettings where
  enabled : Bool
  widthInches : ℚ

/-- Album record (the fields consumed by the layout core). -/
structure Album where
  id : String
  name : String
  createdAt : String
  updatedAt : String
  size : AlbumSize
  dpi : ℚ
  gutter : GutterSettings
  spreadIds : List String

/-- JavaScript `Math.round`: round half toward positive infinity. -/
def jsRound (x : ℚ) : ℤ := ⌊x + 1 / 2⌋

/-- inchesToPixels(inches, dpi) = Math.round(inches * dpi). -/
def inchesToPixels (inches dpi : ℚ) : ℤ := jsRound (inches * dpi)

/-- pixelsToInches(pixels, dpi) = pixels / dpi (no rounding). -/
def pixelsToInches (pixels dpi : ℚ) : ℚ := pixels / dpi

/-- getCanvasDimensions from the album types module. -/
def getCanvasDimensions (album : Album) : ℤ × ℤ :=
  (inchesToPixels album.size.width album.dpi,
   inchesToPixels album.size.height album.dpi)

/-- getGutterPixels: 0 when the gutter is disabled. -/
def getGutterPixels (album : Album) : ℤ :=
  if album.gutter.enabled then inchesToPixels album.gutter.widthInches album.dpi
  else 0

/-- One generated spread, as pushed by autoGenerateSpreads. -/
structure GeneratedSpread where
  frames : List PhotoFrame

/-- The chunking performed by `for (let i = 0; i < photos.length; i += photosPerSpread)`
with `photos.slice(i, i + photosPerSpread)`; the fuel argument is a Lean-side
termination device, always called with fuel = photos.length, which is enough
for any positive chunk size. -/
def chunksAux (p : ℕ) : ℕ → List Photo → List (List Photo)
  | _, [] => []
  | 0, _ :: _ => []
  | fuel + 1, x :: xs => ((x :: xs).take p) :: chunksAux p fuel ((x :: xs).drop p)

/-- autoGenerateSpreads from layouts.ts: derives canvas size, gutter pixels and
a 0.2-inch margin from the album, then lays out each chunk with the template
selected by getLayoutForPhotoCount. -/
def autoGenerateSpreads (fresh : ℕ → String) (photos : List Photo)
    (photosPerSpread : ℕ) (album : Album) : List GeneratedSpread :=
  let dims := getCanvasDimensions album
  let gutterWidth : ℚ := (getGutterPixels album : ℤ)
  let margin : ℚ := (jsRound (album.dpi * (2 / 10)) : ℤ)
  (chunksAux photosPerSpread photos.length photos).map
    (fun spreadPhotos =>
      { frames := generateFramesForLayout fresh
          (getLayoutForPhotoCount (spreadPhotos.length : ℤ)) spreadPhotos
          (dims.1 : ℚ) (dims.2 : ℚ) gutterWidth margin })

/-- Result of the compositor's per-frame cover-fit computation
(`scale`, `offsetX`, `offsetY` in handleExport). -/
structure CoverFit where
  scale : ℚ
  offsetX : ℚ
  offsetY : ℚ
  deriving DecidableEq

/-- The cover-fit computation of handleExport: if the image is relatively
wider than the frame, scale by height and center horizontally; otherwise
scale by width and center vertically. -/
def coverFit (imgWidth imgHeight frameWidth frameHeight : ℚ) : CoverFit :=
  let imgAspect := imgWidth / imgHeight
  let frameAspect := frameWidth / frameHeight
  if imgAspect > frameAspect then
    { scale := frameHeight / imgHeight,
      offsetX := (frameWidth - imgWidth * (frameHeight / imgHeight)) / 2,
      offsetY := 0 }
  else
    { scale := frameWidth / imgWidth,
      offsetX := 0,
      offsetY := (frameHeight - imgHeight * (frameWidth / imgWidth)) / 2 }

/-- Decoded image dimensions, as read off the loaded HTMLImageElement. -/
structure ImageData where
  width : ℚ
  height : ℚ
  deriving DecidableEq

/-- The arguments of the final ctx.drawImage call for one frame. -/
structure DrawOp where
  img : ImageData
  dx : ℚ
  dy : ℚ
  dw : ℚ
  dh : ℚ
  deriving DecidableEq

/-- The per-frame pipeline of handleExport, parametrised by the outcome
oracles: `photoUrls.get` (a falsy — absent or empty — url skips the frame),
`getPhotoBlob` (an absent blob skips the frame) and image loading/drawing
(any thrown error is caught, logged and skips the frame). `none` means the
frame is skipped; `some` carries the drawImage arguments. -/
def frameDraw {Blob : Type} (photoUrls : String → Option String)
    (blobOf : String → Option Blob) (loadImage : Blob → Except String ImageData)
    (frame : PhotoFrame) : Option DrawOp :=
  match photoUrls frame.photoId with
  | none => none
  | some url =>
    if url.isEmpty then none
    else
      match blobOf frame.photoId with
      | none => none
      | some b =>
        match loadImage b with
        | Except.error _ => none
        | Except.ok img =>
          let fit := coverFit img.width img.height frame.width frame.height
          some
            { img := img,
              dx := frame.x + fit.offsetX + frame.imageOffsetX,
              dy := frame.y + fit.offsetY + frame.imageOffsetY,
              dw := img.width * fit.scale * frame.imageScale,
              dh := img.height * fit.scale * frame.imageScale }

/-- The `for (const frame of spread.frames)` loop of handleExport: frames are
processed in order, accumulating the successful draw operations; a skipped
frame contributes nothing and the loop continues with the next frame. -/
def renderSpread {Blob : Type} (photoUrls : String → Option String)
    (blobOf : String → Option Blob) (loadImage : Blob → Except String ImageData)
    (frames : List PhotoFrame) : List (PhotoFrame × DrawOp) :=
  frames.foldl
    (fun acc frame =>
      match frameDraw photoUrls blobOf loadImage frame with
      | none => acc
      | some op => acc ++ [(frame, op)])
    []

/-- The progress events emitted by the export loop from iteration `i` on:
`setProgress((i / n) * 100)` at the top of each iteration and
`setProgress(((i + 1) / n) * 100)` after the spread is written. The fuel is a
Lean-side termination device; `n` iterations always suffice from `i = 0`. -/
def exportEventsAux (n : ℕ) : ℕ → ℕ → List ℚ
  | 0, _ => []
  | fuel + 1, i =>
    if i < n then
      ((i : ℚ) / n * 100) :: (((i : ℚ) + 1) / n * 100) :: exportEventsAux n fuel (i + 1)
    else []

/-- The full sequence of progress values reported while exporting `n` spreads:
the initial `setProgress(0)` followed by the per-iteration events. -/
def exportProgressSequence (n : ℕ) : List ℚ :=
  0 :: exportEventsAux n n 0

/-! ### Helper lemmas: template selection -/

/-- Distance used by the nearest-template comparator. -/
def templateDistance (count : ℤ) (t : LayoutTemplate) : ℕ :=
  ((t.photoCount : ℤ) - count).natAbs

lemma getLayout_one : getLayoutForPhotoCount 1 = singleFull := rfl

lemma getLayout_two : getLayoutForPhotoCount 2 = twoSideBySide := rfl

lemma getLayout_three : getLayoutForPhotoCount 3 = threeOneTwo := rfl

lemma getLayout_four : getLayoutForPhotoCount 4 = fourGrid := rfl

lemma getLayout_five : getLayoutForPhotoCount 5 = fourGrid := rfl

lemma getLayout_six : getLayoutForPhotoCount 6 = sixMosaic := rfl

lemma getLayout_nonpos (n : ℤ) (hn : n ≤ 0) : getLayoutForPhotoCount n = singleFull := by
  have h1 : (((singleFull.photoCount : ℤ)) == n) = false := by
    simp [singleFull]; omega
  have h2 : (((twoSideBySide.photoCount : ℤ)) == n) = false := by
    simp [twoSideBySide]; omega
  have h3 : (((threeOneTwo.photoCount : ℤ)) == n) = false := by
    simp [threeOneTwo]; omega
  have h4 : (((fourGrid.photoCount : ℤ)) == n) = false := by
    simp [fourGrid]; omega
  have h6 : (((sixMosaic.photoCount : ℤ)) == n) = false := by
    simp [sixMosaic]; omega
  simp only [getLayoutForPhotoCount, LAYOUT_TEMPLATES, List.find?, h1, h2, h3, h4, h6]
  simp only [sortByKey, List.foldl]
  simp only [insertByKey]
  rw [if_neg (by simp only [singleFull, twoSideBySide]; omega)]
  simp only [insertByKey]
  rw [if_neg (by simp only [singleFull, threeOneTwo]; omega)]
  rw [if_neg (by simp only [twoSideBySide, threeOneTwo]; omega)]
  simp only [insertByKey]
  rw [if_neg (by simp only [singleFull, fourGrid]; omega)]
  rw [if_neg (by simp only [twoSideBySide, fourGrid]; omega)]
  rw [if_neg (by simp only [threeOneTwo, fourGrid]; omega)]
  simp only [insertByKey]
  rw [if_neg (by simp only [singleFull, sixMosaic]; omega)]
  rw [if_neg (by simp only [twoSideBySide, sixMosaic]; omega)]
  rw [if_neg (by simp only [threeOneTwo, sixMosaic]; omega)]
  rw [if_neg (by simp only [fourGrid, sixMosaic]; omega)]
  rfl

lemma getLayout_ge_seven (n : ℤ) (hn : 7 ≤ n) : getLayoutForPhotoCount n = sixMosaic := by
  have h1 : (((singleFull.photoCount : ℤ)) == n) = false := by
    simp [singleFull]; omega
  have h2 : (((twoSideBySide.photoCount : ℤ)) == n) = false := by
    simp [twoSideBySide]; omega
  have h3 : (((threeOneTwo.photoCount : ℤ)) == n) = false := by
    simp [threeOneTwo]; omega
  have h4 : (((fourGrid.photoCount : ℤ)) == n) = false := by
    simp [fourGrid]; omega
  have h6 : (((sixMosaic.photoCount : ℤ)) == n) = false := by
    simp [sixMosaic]; omega
  simp only [getLayoutForPhotoCount, LAYOUT_TEMPLATES, List.find?, h1, h2, h3, h4, h6]
  simp only [sortByKey, List.foldl]
  simp only [insertByKey]
  rw [if_pos (by simp only [singleFull, twoSideBySide]; omega)]
  simp only [insertByKey]
  rw [if_pos (by simp only [twoSideBySide, threeOneTwo]; omega)]
  simp only [insertByKey]
  rw [if_pos (by simp only [threeOneTwo, fourGrid]; omega)]
  simp only [insertByKey]
  rw [if_pos (by simp only [fourGrid, sixMosaic]; omega)]
  rfl

lemma getLayout_cases (n : ℤ) :
    getLayoutForPhotoCount n = singleFull ∨
    getLayoutForPhotoCount n = twoSideBySide ∨
    getLayoutForPhotoCount n = threeOneTwo ∨
    getLayoutForPhotoCount n = fourGrid ∨
    getLayoutForPhotoCount n = sixMosaic := by
  rcases (by omega :
      n ≤ 0 ∨ n = 1 ∨ n = 2 ∨ n = 3 ∨ n = 4 ∨ n = 5 ∨ n = 6 ∨ 7 ≤ n) with
    h | h | h | h | h | h | h | h
  · exact Or.inl (getLayout_nonpos n h)
  · exact Or.inl (h ▸ getLayout_one)
  · exact Or.inr (Or.inl (h ▸ getLayout_two))
  · exact Or.inr (Or.inr (Or.inl (h ▸ getLayout_three)))
  · exact Or.inr (Or.inr (Or.inr (Or.inl (h ▸ getLayout_four))))
  · exact Or.inr (Or.inr (Or.inr (Or.inl (h ▸ getLayout_five))))
  · exact Or.inr (Or.inr (Or.inr (Or.inr (h ▸ getLayout_six))))
  · exact Or.inr (Or.inr (Or.inr (Or.inr (getLayout_ge_seven n h))))

lemma getLayout_mem (n : ℤ) : getLayoutForPhotoCount n ∈ LAYOUT_TEMPLATES := by
  rcases getLayout_cases n with h | h | h | h | h <;>
    simp [h, LAYOUT_TEMPLATES]

/-- Each catalogue template generates exactly photoCount rectangles,
whatever the canvas parameters are. -/
lemma generateFrames_length (t : LayoutTemplate) (ht : t ∈ LAYOUT_TEMPLATES)
    (w h gutter margin : ℚ) :
    (t.generateFrames w h gutter margin).length = t.photoCount := by
  simp only [LAYOUT_TEMPLATES, List.mem_cons, List.not_mem_nil, or_false] at ht
  rcases ht with rfl | rfl | rfl | rfl | rfl <;> rfl

/-! ### Helper lemmas: frame instantiation and chunking -/

lemma mapWithIndexFrom_length (f : ℕ → FrameRect → PhotoFrame) (i : ℕ)
    (l : List FrameRect) : (mapWithIndexFrom f i l).length = l.length := by
  induction l generalizing i with
  | nil => rfl
  | cons r rs ih => simp [mapWithIndexFrom, ih]

lemma mapWithIndexFrom_get? (f : ℕ → FrameRect → PhotoFrame) (i j : ℕ)
    (l : List FrameRect) :
    (mapWithIndexFrom f i l).get? j = (l.get? j).map (f (i + j)) := by
  induction l generalizing i j with
  | nil => simp [mapWithIndexFrom]
  | cons r rs ih =>
    cases j with
    | zero => simp [mapWithIndexFrom]
    | succ j =>
      have harith : i + (j + 1) = (i + 1) + j := by omega
      rw [show mapWithIndexFrom f i (r :: rs)
            = f i r :: mapWithIndexFrom f (i + 1) rs from rfl,
        List.get?_cons_succ, List.get?_cons_succ, ih (i + 1) j, harith]

lemma generateFramesForLayout_length (fresh : ℕ → String) (t : LayoutTemplate)
    (ht : t ∈ LAYOUT_TEMPLATES) (photos : List Photo) (w h g m : ℚ) :
    (generateFramesForLayout fresh t photos w h g m).length
      = min photos.length t.photoCount := by
  simp [generateFramesForLayout, mapWithIndexFrom_length, List.length_take,
    generateFrames_length t ht w h g m]

lemma generateFramesForLayout_photoId (fresh : ℕ → String) (t : LayoutTemplate)
    (ht : t ∈ LAYOUT_TEMPLATES) (photos : List Photo) (w h g m : ℚ)
    (hlen : photos.length ≤ t.photoCount) (j : ℕ) :
    ((generateFramesForLayout fresh t photos w h g m).get? j).map PhotoFrame.photoId
      = (photos.get? j).map Photo.id := by
  rw [show generateFramesForLayout fresh t photos w h g m
        = mapWithIndexFrom
            (fun index frame =>
              frame.withIds (fresh index) (((photos.get? index).map Photo.id).getD ""))
            0 ((t.generateFrames w h g m).take photos.length) from rfl,
    mapWithIndexFrom_get?]
  rcases Nat.lt_or_ge j photos.length with hj | hj
  · have hjr : j < (t.generateFrames w h g m).length := by
      rw [generateFrames_length t ht w h g m]; omega
    have hp := List.get?_eq_get hj
    have htake : ((t.generateFrames w h g m).take photos.length).get? j
        = (t.generateFrames w h g m).get? j := List.get?_take hj
    have hr := List.get?_eq_get hjr
    rw [htake, hr]
    have hp2 : photos[j]? = some (photos.get ⟨j, hj⟩) := by
      rw [← List.get?_eq_getElem?]; exact hp
    simp [FrameRect.withIds, hp2]
  · have h1 : ((t.generateFrames w h g m).take photos.length).get? j = none := by
      apply List.get?_eq_none.mpr
      rw [List.length_take]
      exact le_trans inf_le_left hj
    have h2 : photos.get? j = none := List.get?_eq_none.mpr hj
    rw [h1, h2]
    rfl

lemma chunksAux_nil_of_empty (p fuel : ℕ) : chunksAux p fuel [] = [] := by
  cases fuel <;> rfl

lemma chunksAux_cons (p fuel : ℕ) (x : Photo) (xs : List Photo) :
    chunksAux p (fuel + 1) (x :: xs)
      = ((x :: xs).take p) :: chunksAux p fuel ((x :: xs).drop p) := rfl

lemma chunksAux_length (p : ℕ) (hp : 1 ≤ p) :
    ∀ fuel (l : List Photo), l.length ≤ fuel →
      (chunksAux p fuel l).length = (l.length + p - 1) / p := by
  intro fuel
  induction fuel with
  | zero =>
    intro l hl
    have hnil : l = [] := List.length_eq_zero.mp (by omega)
    subst hnil
    rw [chunksAux_nil_of_empty]
    simp
    exact (Nat.div_eq_of_lt (by omega)).symm
  | succ fuel ih =>
    intro l hl
    cases l with
    | nil =>
      rw [chunksAux_nil_of_empty]
      simp
      exact (Nat.div_eq_of_lt (by omega)).symm
    | cons x xs =>
      have hdrop : ((x :: xs).drop p).length ≤ fuel := by
        rw [List.length_drop, List.length_cons]
        simp only [List.length_cons] at hl
        omega
      rw [chunksAux_cons, List.length_cons, ih _ hdrop, List.length_drop,
        List.length_cons]
      rcases le_or_lt p (xs.length + 1) with hcase | hcase
      · have h1 : xs.length + 1 - p + p - 1 + p = xs.length + 1 + p - 1 := by omega
        rw [← Nat.add_div_right (xs.length + 1 - p + p - 1) (by omega), h1]
      · have h1 : xs.length + 1 - p = 0 := by omega
        rw [h1]
        rw [Nat.div_eq_of_lt (by omega : 0 + p - 1 < p)]
        symm
        exact Nat.div_eq_of_lt_le (by omega) (by omega)

lemma chunksAux_get? (p : ℕ) (hp : 1 ≤ p) :
    ∀ fuel (l : List Photo) (i : ℕ), l.length ≤ fuel →
      i < (chunksAux p fuel l).length →
      (chunksAux p fuel l).get? i = some ((l.drop (i * p)).take p) := by
  intro fuel
  induction fuel with
  | zero =>
    intro l i hl hi
    have hnil : l = [] := List.length_eq_zero.mp (by omega)
    subst hnil
    rw [chunksAux_nil_of_empty] at hi
    simp at hi
  | succ fuel ih =>
    intro l i hl hi
    cases l with
    | nil =>
      rw [chunksAux_nil_of_empty] at hi
      simp at hi
    | cons x xs =>
      cases i with
      | zero => rw [chunksAux_cons]; simp
      | succ i =>
        have hdrop : ((x :: xs).drop p).length ≤ fuel := by
          rw [List.length_drop, List.length_cons]
          simp only [List.length_cons] at hl
          omega
        have hi2 : i < (chunksAux p fuel ((x :: xs).drop p)).length := by
          rw [chunksAux_cons, List.length_cons] at hi
          omega
        have hrec := ih ((x :: xs).drop p) i hdrop hi2
        rw [chunksAux_cons, List.get?_cons_succ, hrec, List.drop_drop]
        have harith : p + i * p = (i + 1) * p := by ring
        rw [harith]

/-! ### Helper lemmas: compositor loop and export progress -/

lemma renderSpread_foldl {Blob : Type} (photoUrls : String → Option String)
    (blobOf : String → Option Blob) (loadImage : Blob → Except String ImageData) :
    ∀ (frames : List PhotoFrame) (acc : List (PhotoFrame × DrawOp)),
      frames.foldl
        (fun acc frame =>
          match frameDraw photoUrls blobOf loadImage frame with
          | none => acc
          | some op => acc ++ [(frame, op)])
        acc
      = acc ++ frames.filterMap
          (fun f => (frameDraw photoUrls blobOf loadImage f).map (fun op => (f, op))) := by
  intro frames
  induction frames with
  | nil => intro acc; simp
  | cons f fs ih =>
    intro acc
    rw [List.foldl_cons, List.filterMap_cons]
    cases hfd : frameDraw photoUrls blobOf loadImage f with
    | none => simp [hfd, ih]
    | some op => simp [hfd, ih]

lemma exportEventsAux_stop (n fuel i : ℕ) (h : ¬ i < n) :
    exportEventsAux n fuel i = [] := by
  cases fuel with
  | zero => rfl
  | succ fuel => simp [exportEventsAux, h]

lemma exportEventsAux_step (n fuel i : ℕ) (h : i < n) :
    exportEventsAux n (fuel + 1) i
      = ((i : ℚ) / n * 100) :: (((i : ℚ) + 1) / n * 100)
          :: exportEventsAux n fuel (i + 1) := by
  simp [exportEventsAux, h]

lemma exportEventsAux_chain (n : ℕ) :
    ∀ fuel (i : ℕ), List.Chain (· ≤ ·) ((i : ℚ) / n * 100) (exportEventsAux n fuel i) := by
  intro fuel
  induction fuel with
  | zero => intro i; exact List.Chain.nil
  | succ fuel ih =>
    intro i
    by_cases h : i < n
    · rw [exportEventsAux_step n fuel i h]
      have hn : (0 : ℚ) < n := by
        have : 0 < n := by omega
        exact_mod_cast this
      refine List.Chain.cons le_rfl (List.Chain.cons ?_ ?_)
      · have hd : (i : ℚ) / n ≤ ((i : ℚ) + 1) / n :=
          (div_le_div_right hn).mpr (by linarith)
        nlinarith
      · have htail := ih (i + 1)
        push_cast at htail
        exact htail
    · rw [exportEventsAux_stop n (fuel + 1) i h]
      exact List.Chain.nil

lemma exportEventsAux_bounds (n : ℕ) :
    ∀ fuel (i : ℕ), ∀ x ∈ exportEventsAux n fuel i, 0 ≤ x ∧ x ≤ 100 := by
  intro fuel
  induction fuel with
  | zero => intro i x hx; simp [exportEventsAux] at hx
  | succ fuel ih =>
    intro i x hx
    by_cases h : i < n
    · rw [exportEventsAux_step n fuel i h] at hx
      have hn : (0 : ℚ) < n := by exact_mod_cast (by omega : 0 < n)
      have hi : (i : ℚ) ≤ (n : ℚ) := by exact_mod_cast (by omega : i ≤ n)
      have hi1 : (i : ℚ) + 1 ≤ (n : ℚ) := by
        have : i + 1 ≤ n := by omega
        exact_mod_cast this
      simp only [List.mem_cons] at hx
      rcases hx with rfl | rfl | hx
      · constructor
        · positivity
        · have : (i : ℚ) / n ≤ 1 := (div_le_one hn).mpr hi
          nlinarith
      · constructor
        · positivity
        · have : ((i : ℚ) + 1) / n ≤ 1 := (div_le_one hn).mpr hi1
          nlinarith
      · exact ih (i + 1) x hx
    · rw [exportEventsAux_stop n (fuel + 1) i h] at hx
      simp at hx

lemma exportEventsAux_concat (n : ℕ) :
    ∀ fuel (i : ℕ), i < n → n ≤ fuel + i →
      ∃ l, exportEventsAux n fuel i = l ++ [100] := by
  intro fuel
  induction fuel with
  | zero => intro i hi hf; omega
  | succ fuel ih =>
    intro i hi hf
    rw [exportEventsAux_step n fuel i hi]
    by_cases h : i + 1 < n
    · obtain ⟨l, hl⟩ := ih (i + 1) h (by omega)
      exact ⟨(i : ℚ) / n * 100 :: ((i : ℚ) + 1) / n * 100 :: l, by simp [hl]⟩
    · have hin : i + 1 = n := by omega
      have hn : (n : ℚ) ≠ 0 := by
        have : 0 < n := by omega
        exact_mod_cast this.ne.symm
      have hval : ((i : ℚ) + 1) / n * 100 = 100 := by
        have : ((i : ℚ) + 1) = (n : ℚ) := by exact_mod_cast hin
        rw [this, div_self hn, one_mul]
      rw [exportEventsAux_stop n fuel (i + 1) h, hval]
      exact ⟨[(i : ℚ) / n * 100], rfl⟩

lemma exportEventsAux_reach (n : ℕ) :
    ∀ fuel (i j : ℕ), i ≤ j → j < n → n ≤ fuel + i →
      ((j : ℚ) + 1) / n * 100 ∈ exportEventsAux n fuel i := by
  intro fuel
  induction fuel with
  | zero => intro i j hij hj hf; omega
  | succ fuel ih =>
    intro i j hij hj hf
    have hi : i < n := by omega
    rw [exportEventsAux_step n fuel i hi]
    rcases Nat.eq_or_lt_of_le hij with rfl | hlt
    · exact List.mem_cons_of_mem _ (List.mem_cons_self _ _)
    · exact List.mem_cons_of_mem _
        (List.mem_cons_of_mem _ (ih (i + 1) j (by omega) hj (by omega)))

/-! ### Claim theorems -/

/-- C7: for every dpi d > 0 and inches i ≥ 0, the round trip
pixelsToInches(inchesToPixels(i, d), d) differs from i by at most 1/d,
where inchesToPixels rounds and pixelsToInches does not. -/
theorem C7_unit_conversion_round_trip (d i : ℚ) (hd : 0 < d) (hi : 0 ≤ i) :
    |pixelsToInches ((inchesToPixels i d : ℤ) : ℚ) d - i| ≤ 1 / d := by
  have h1 : ((inchesToPixels i d : ℤ) : ℚ) ≤ i * d + 1 / 2 :=
    Int.floor_le (i * d + 1 / 2)
  have h2 : i * d + 1 / 2 < ((inchesToPixels i d : ℤ) : ℚ) + 1 :=
    Int.lt_floor_add_one (i * d + 1 / 2)
  have key : |((inchesToPixels i d : ℤ) : ℚ) - i * d| ≤ 1 / 2 :=
    abs_le.mpr ⟨by linarith, by linarith⟩
  have heq : pixelsToInches ((inchesToPixels i d : ℤ) : ℚ) d - i
      = (((inchesToPixels i d : ℤ) : ℚ) - i * d) / d := by
    rw [pixelsToInches]
    field_simp
    ring
  rw [heq, abs_div, abs_of_pos hd]
  calc |((inchesToPixels i d : ℤ) : ℚ) - i * d| / d ≤ (1 / 2) / d := by gcongr
    _ ≤ 1 / d := by gcongr <;> norm_num

/-- C7 witness: the round trip at dpi 300 and 2 inches is within 1/300. -/
theorem C7_witness :
    |pixelsToInches ((inchesToPixels 2 300 : ℤ) : ℚ) 300 - 2| ≤ 1 / 300 :=
  C7_unit_conversion_round_trip 300 2 (by norm_num) (by norm_num)

/-- C2 counterexample: for a 200×100 image in a 100×100 frame the aspect
condition of the claim holds, yet the centering offsetX is -50, not strictly
positive as the claim states. -/
theorem C2_counterexample :
    (200 : ℚ) / 100 > 100 / 100 ∧
    (coverFit 200 100 100 100).scale = 1 ∧
    (coverFit 200 100 100 100).offsetY = 0 ∧
    (coverFit 200 100 100 100).offsetX = -50 ∧
    ¬ 0 < (coverFit 200 100 100 100).offsetX := by
  norm_num [coverFit]

/-- C2 amended: in the cover fit, for an image relatively wider than its
frame the scale is frameHeight/imageHeight, offsetY = 0 and the centering
offsetX = (frameWidth - imageWidth*scale)/2 is strictly NEGATIVE (the scaled
image overflows the frame horizontally and is shifted left to center-crop);
otherwise scale = frameWidth/imageWidth, offsetX = 0 and
offsetY = (frameHeight - imageHeight*scale)/2. -/
theorem C2_cover_fit (imgWidth imgHeight width height : ℚ)
    (hiw : 0 < imgWidth) (hih : 0 < imgHeight) (hw : 0 < width) (hh : 0 < height) :
    (imgWidth / imgHeight > width / height →
      (coverFit imgWidth imgHeight width height).scale = height / imgHeight ∧
      (coverFit imgWidth imgHeight width height).offsetY = 0 ∧
      (coverFit imgWidth imgHeight width height).offsetX
        = (width - imgWidth * (height / imgHeight)) / 2 ∧
      (coverFit imgWidth imgHeight width height).offsetX < 0) ∧
    (¬ imgWidth / imgHeight > width / height →
      (coverFit imgWidth imgHeight width height).scale = width / imgWidth ∧
      (coverFit imgWidth imgHeight width height).offsetX = 0 ∧
      (coverFit imgWidth imgHeight width height).offsetY
        = (height - imgHeight * (width / imgWidth)) / 2) := by
  constructor
  · intro hcond
    have hset : coverFit imgWidth imgHeight width height
        = { scale := height / imgHeight,
            offsetX := (width - imgWidth * (height / imgHeight)) / 2,
            offsetY := 0 } := by
      rw [coverFit, if_pos hcond]
    refine ⟨by rw [hset], by rw [hset], by rw [hset], ?_⟩
    rw [hset]
    have hcross : width * imgHeight < imgWidth * height := by
      rw [gt_iff_lt, div_lt_div_iff hh hih] at hcond
      exact hcond
    have hX : width < imgWidth * (height / imgHeight) := by
      rw [← mul_div_assoc, lt_div_iff hih]
      linarith
    show (width - imgWidth * (height / imgHeight)) / 2 < 0
    linarith
  · intro hcond
    have hset : coverFit imgWidth imgHeight width height
        = { scale := width / imgWidth,
            offsetX := 0,
            offsetY := (height - imgHeight * (width / imgWidth)) / 2 } := by
      rw [coverFit, if_neg hcond]
    exact ⟨by rw [hset], by rw [hset], by rw [hset]⟩

/-- C2 witness: both branches of the amended cover-fit theorem instantiated,
the wider-image branch at a 200×100 image in a 100×100 frame. -/
theorem C2_witness :
    (coverFit 200 100 100 100).scale = 100 / 100 ∧
    (coverFit 200 100 100 100).offsetY = 0 ∧
    (coverFit 200 100 100 100).offsetX = (100 - 200 * ((100 : ℚ) / 100)) / 2 ∧
    (coverFit 200 100 100 100).offsetX < 0 :=
  (C2_cover_fit 200 100 100 100 (by norm_num) (by norm_num) (by norm_num)
    (by norm_num)).1 (by norm_num)

/-- C9: the compositor loop never aborts on a frame whose photo fails to
resolve (absent url, missing blob, or load error): the rendered draw list is
exactly the filterMap of the per-frame pipeline over the frame list, so a
failing frame is skipped in place and every resolvable frame is still drawn. -/
theorem C9_per_frame_failure_skips_frame {Blob : Type}
    (photoUrls : String → Option String) (blobOf : String → Option Blob)
    (loadImage : Blob → Except String ImageData) (frames : List PhotoFrame) :
    renderSpread photoUrls blobOf loadImage frames
      = frames.filterMap
          (fun f => (frameDraw photoUrls blobOf loadImage f).map (fun op => (f, op))) ∧
    ∀ f ∈ frames, ∀ op, frameDraw photoUrls blobOf loadImage f = some op →
      (f, op) ∈ renderSpread photoUrls blobOf loadImage frames := by
  have heq : renderSpread photoUrls blobOf loadImage frames
      = frames.filterMap
          (fun f => (frameDraw photoUrls blobOf loadImage f).map (fun op => (f, op))) := by
    rw [renderSpread]
    simpa using renderSpread_foldl photoUrls blobOf loadImage frames []
  refine ⟨heq, ?_⟩
  intro f hf op hop
  rw [heq]
  exact List.mem_filterMap.mpr ⟨f, hf, by rw [hop]; rfl⟩

/-- C3: getLayoutForPhotoCount returns the exact-photoCount template when one
exists; in general its result sits in the catalogue with every earlier
template at strictly greater distance |photoCount - n| and every template at
greater-or-equal distance (the first minimizer, ties to catalogue order);
in particular count 5 yields the Four Grid template. -/
theorem C3_nearest_template (n : ℤ) :
    (∀ t ∈ LAYOUT_TEMPLATES, (t.photoCount : ℤ) = n → getLayoutForPhotoCount n = t) ∧
    (∃ pre post,
      LAYOUT_TEMPLATES = pre ++ getLayoutForPhotoCount n :: post ∧
      (∀ t ∈ pre,
        templateDistance n (getLayoutForPhotoCount n) < templateDistance n t) ∧
      (∀ t ∈ LAYOUT_TEMPLATES,
        templateDistance n (getLayoutForPhotoCount n) ≤ templateDistance n t)) ∧
    getLayoutForPhotoCount 5 = fourGrid := by
  rcases (by omega :
      n ≤ 0 ∨ n = 1 ∨ n = 2 ∨ n = 3 ∨ n = 4 ∨ n = 5 ∨ n = 6 ∨ 7 ≤ n) with
    h | h | h | h | h | h | h | h
  · refine ⟨?_, ?_, getLayout_five⟩
    · intro t ht hpc
      exfalso
      simp only [LAYOUT_TEMPLATES, List.mem_cons, List.not_mem_nil, or_false] at ht
      rcases ht with rfl | rfl | rfl | rfl | rfl <;>
        simp only [singleFull, twoSideBySide, threeOneTwo, fourGrid, sixMosaic] at hpc <;>
        omega
    · refine ⟨[], [twoSideBySide, threeOneTwo, fourGrid, sixMosaic],
        by rw [getLayout_nonpos n h]; rfl, by simp, ?_⟩
      intro t ht
      rw [getLayout_nonpos n h]
      simp only [LAYOUT_TEMPLATES, List.mem_cons, List.not_mem_nil, or_false] at ht
      rcases ht with rfl | rfl | rfl | rfl | rfl <;>
        simp only [templateDistance, singleFull, twoSideBySide, threeOneTwo,
          fourGrid, sixMosaic] <;>
        omega
  · subst h
    refine ⟨?_, ?_, getLayout_five⟩
    · intro t ht hpc
      simp only [LAYOUT_TEMPLATES, List.mem_cons, List.not_mem_nil, or_false] at ht
      rcases ht with rfl | rfl | rfl | rfl | rfl <;>
        first
          | exact getLayout_one
          | (simp only [singleFull, twoSideBySide, threeOneTwo, fourGrid,
              sixMosaic] at hpc; omega)
    · refine ⟨[], [twoSideBySide, threeOneTwo, fourGrid, sixMosaic],
        by rw [getLayout_one]; rfl, by simp, ?_⟩
      intro t ht
      rw [getLayout_one]
      simp only [LAYOUT_TEMPLATES, List.mem_cons, List.not_mem_nil, or_false] at ht
      rcases ht with rfl | rfl | rfl | rfl | rfl <;>
        simp only [templateDistance, singleFull, twoSideBySide, threeOneTwo,
          fourGrid, sixMosaic] <;>
        omega
  · subst h
    refine ⟨?_, ?_, getLayout_five⟩
    · intro t ht hpc
      simp only [LAYOUT_TEMPLATES, List.mem_cons, List.not_mem_nil, or_false] at ht
      rcases ht with rfl | rfl | rfl | rfl | rfl <;>
        first
          | exact getLayout_two
          | (simp only [singleFull, twoSideBySide, threeOneTwo, fourGrid,
              sixMosaic] at hpc; omega)
    · refine ⟨[singleFull], [threeOneTwo, fourGrid, sixMosaic],
        by rw [getLayout_two]; rfl, ?_, ?_⟩
      · intro t ht
        rw [getLayout_two]
        simp only [List.mem_singleton] at ht
        subst ht
        simp only [templateDistance, singleFull, twoSideBySide]
        omega
      · intro t ht
        rw [getLayout_two]
        simp only [LAYOUT_TEMPLATES, List.mem_cons, List.not_mem_nil, or_false] at ht
        rcases ht with rfl | rfl | rfl | rfl | rfl <;>
          simp only [templateDistance, singleFull, twoSideBySide, threeOneTwo,
            fourGrid, sixMosaic] <;>
          omega
  · subst h
    refine ⟨?_, ?_, getLayout_five⟩
    · intro t ht hpc
      simp only [LAYOUT_TEMPLATES, List.mem_cons, List.not_mem_nil, or_false] at ht
      rcases ht with rfl | rfl | rfl | rfl | rfl <;>
        first
          | exact getLayout_three
          | (simp only [singleFull, twoSideBySide, threeOneTwo, fourGrid,
              sixMosaic] at hpc; omega)
    · refine ⟨[singleFull, twoSideBySide], [fourGrid, sixMosaic],
        by rw [getLayout_three]; rfl, ?_, ?_⟩
      · intro t ht
        rw [getLayout_three]
        simp only [List.mem_cons, List.mem_singleton, List.not_mem_nil, or_false] at ht
        rcases ht with rfl | rfl <;>
          simp only [templateDistance, singleFull, twoSideBySide, threeOneTwo] <;>
          omega
      · intro t ht
        rw [getLayout_three]
        simp only [LAYOUT_TEMPLATES, List.mem_cons, List.not_mem_nil, or_false] at ht
        rcases ht with rfl | rfl | rfl | rfl | rfl <;>
          simp only [templateDistance, singleFull, twoSideBySide, threeOneTwo,
            fourGrid, sixMosaic] <;>
          omega
  · subst h
    refine ⟨?_, ?_, getLayout_five⟩
    · intro t ht hpc
      simp only [LAYOUT_TEMPLATES, List.mem_cons, List.not_mem_nil, or_false] at ht
      rcases ht with rfl | rfl | rfl | rfl | rfl <;>
        first
          | exact getLayout_four
          | (simp only [singleFull, twoSideBySide, threeOneTwo, fourGrid,
              sixMosaic] at hpc; omega)
    · refine ⟨[singleFull, twoSideBySide, threeOneTwo], [sixMosaic],
        by rw [getLayout_four]; rfl, ?_, ?_⟩
      · intro t ht
        rw [getLayout_four]
        simp only [List.mem_cons, List.mem_singleton, List.not_mem_nil, or_false] at ht
        rcases ht with rfl | rfl | rfl <;>
          simp only [templateDistance, singleFull, twoSideBySide, threeOneTwo,
            fourGrid] <;>
          omega
      · intro t ht
        rw [getLayout_four]
        simp only [LAYOUT_TEMPLATES, List.mem_cons, List.not_mem_nil, or_false] at ht
        rcases ht with rfl | rfl | rfl | rfl | rfl <;>
          simp only [templateDistance, singleFull, twoSideBySide, threeOneTwo,
            fourGrid, sixMosaic] <;>
          omega
  · subst h
    refine ⟨?_, ?_, getLayout_five⟩
    · intro t ht hpc
      exfalso
      simp only [LAYOUT_TEMPLATES, List.mem_cons, List.not_mem_nil, or_false] at ht
      rcases ht with rfl | rfl | rfl | rfl | rfl <;>
        simp only [singleFull, twoSideBySide, threeOneTwo, fourGrid, sixMosaic] at hpc <;>
        omega
    · refine ⟨[singleFull, twoSideBySide, threeOneTwo], [sixMosaic],
        by rw [getLayout_five]; rfl, ?_, ?_⟩
      · intro t ht
        rw [getLayout_five]
        simp only [List.mem_cons, List.mem_singleton, List.not_mem_nil, or_false] at ht
        rcases ht with rfl | rfl | rfl <;>
          simp only [templateDistance, singleFull, twoSideBySide, threeOneTwo,
            fourGrid] <;>
          omega
      · intro t ht
        rw [getLayout_five]
        simp only [LAYOUT_TEMPLATES, List.mem_cons, List.not_mem_nil, or_false] at ht
        rcases ht with rfl | rfl | rfl | rfl | rfl <;>
          simp only [templateDistance, singleFull, twoSideBySide, threeOneTwo,
            fourGrid, sixMosaic] <;>
          omega
  · subst h
    refine ⟨?_, ?_, getLayout_five⟩
    · intro t ht hpc
      simp only [LAYOUT_TEMPLATES, List.mem_cons, List.not_mem_nil, or_false] at ht
      rcases ht with rfl | rfl | rfl | rfl | rfl <;>
        first
          | exact getLayout_six
          | (simp only [singleFull, twoSideBySide, threeOneTwo, fourGrid,
              sixMosaic] at hpc; omega)
    · refine ⟨[singleFull, twoSideBySide, threeOneTwo, fourGrid], [],
        by rw [getLayout_six]; rfl, ?_, ?_⟩
      · intro t ht
        rw [getLayout_six]
        simp only [List.mem_cons, List.mem_singleton, List.not_mem_nil, or_false] at ht
        rcases ht with rfl | rfl | rfl | rfl <;>
          simp only [templateDistance, singleFull, twoSideBySide, threeOneTwo,
            fourGrid, sixMosaic] <;>
          omega
      · intro t ht
        rw [getLayout_six]
        simp only [LAYOUT_TEMPLATES, List.mem_cons, List.not_mem_nil, or_false] at ht
        rcases ht with rfl | rfl | rfl | rfl | rfl <;>
          simp only [templateDistance, singleFull, twoSideBySide, threeOneTwo,
            fourGrid, sixMosaic] <;>
          omega
  · refine ⟨?_, ?_, getLayout_five⟩
    · intro t ht hpc
      exfalso
      simp only [LAYOUT_TEMPLATES, List.mem_cons, List.not_mem_nil, or_false] at ht
      rcases ht with rfl | rfl | rfl | rfl | rfl <;>
        simp only [singleFull, twoSideBySide, threeOneTwo, fourGrid, sixMosaic] at hpc <;>
        omega
    · refine ⟨[singleFull, twoSideBySide, threeOneTwo, fourGrid], [],
        by rw [getLayout_ge_seven n h]; rfl, ?_, ?_⟩
      · intro t ht
        rw [getLayout_ge_seven n h]
        simp only [List.mem_cons, List.mem_singleton, List.not_mem_nil, or_false] at ht
        rcases ht with rfl | rfl | rfl | rfl <;>
          simp only [templateDistance, singleFull, twoSideBySide, threeOneTwo,
            fourGrid, sixMosaic] <;>
          omega
      · intro t ht
        rw [getLayout_ge_seven n h]
        simp only [LAYOUT_TEMPLATES, List.mem_cons, List.not_mem_nil, or_false] at ht
        rcases ht with rfl | rfl | rfl | rfl | rfl <;>
          simp only [templateDistance, singleFull, twoSideBySide, threeOneTwo,
            fourGrid, sixMosaic] <;>
          omega

/-- C3 witness: the tie at count 5 resolves to the Four Grid template. -/
theorem C3_witness : getLayoutForPhotoCount 5 = fourGrid :=
  (C3_nearest_template 5).2.2

/-- C10: getLayoutForPhotoCount always returns a member of the non-empty
catalogue (it is a total function over ℤ, so autoGenerateSpreads never
encounters a missing template for any chunk size), and for every count
n ≤ 1, including 0 and negative counts, it returns the Single Full Bleed
template, whose photoCount is 1. -/
theorem C10_selection_total (n : ℤ) :
    getLayoutForPhotoCount n ∈ LAYOUT_TEMPLATES ∧
    (n ≤ 1 → getLayoutForPhotoCount n = singleFull) ∧
    singleFull.photoCount = 1 := by
  refine ⟨getLayout_mem n, ?_, rfl⟩
  intro h
  rcases (by omega : n ≤ 0 ∨ n = 1) with h0 | h1
  · exact getLayout_nonpos n h0
  · subst h1
    exact getLayout_one

/-- C10 witness: count -2 is handled and yields the Single Full Bleed template. -/
theorem C10_witness :
    getLayoutForPhotoCount (-2) = singleFull ∧
    getLayoutForPhotoCount (-2) ∈ LAYOUT_TEMPLATES :=
  ⟨(C10_selection_total (-2)).2.1 (by norm_num), (C10_selection_total (-2)).1⟩

/-- C1 counterexample: at canvas 1000×1000 with gutter 0 and margin 0 — a
margin inside the claim's stated valid range, 0 < canvasWidth/2 — the Four
Grid template's fourth rectangle ends at x + width = 1005 > canvasWidth, so
the frames do not all lie within the canvas. -/
theorem C1_counterexample :
    (0 : ℚ) < 1000 / 2 ∧
    ¬ (∀ r ∈ fourGrid.generateFrames 1000 1000 0 0,
        0 ≤ r.x ∧ 0 ≤ r.y ∧ r.x + r.width ≤ 1000 ∧ r.y + r.height ≤ 1000) := by
  have hfr : fourGrid.generateFrames 1000 1000 0 0
      = [templateRect 0 0 240 490 0, templateRect 255 0 240 490 1,
         templateRect 510 0 240 490 2, templateRect 765 0 240 490 3] := by
    norm_num [fourGrid, SPACING, templateRect]
  refine ⟨by norm_num, ?_⟩
  intro hall
  have h4 := hall (templateRect 765 0 240 490 3) (by rw [hfr]; simp)
  obtain ⟨-, -, hx, -⟩ := h4
  simp only [templateRect] at hx
  norm_num at hx

/-- C1 amended: for every template in the catalogue, generateFrames returns
exactly photoCount rectangles, and whenever gutter ≥ 0, margin ≥ SPACING/4,
each half-canvas minus margin leaves at least 2·SPACING of room and the
canvas height minus the two margins leaves at least 2·SPACING, all returned
rectangles have non-negative width and height and lie within
[0, canvasWidth] × [0, canvasHeight]. The count conclusion holds for all
parameters; the claim's sole condition margin < canvasWidth/2 is not enough
for containment (see the counterexample), hence the strengthened bounds. -/
theorem C1_template_frames (t : LayoutTemplate) (ht : t ∈ LAYOUT_TEMPLATES)
    (w h gutter margin : ℚ) (hg : 0 ≤ gutter) (hm : SPACING / 4 ≤ margin)
    (hhalf : 2 * SPACING ≤ (w - gutter) / 2 - margin)
    (hht : 2 * SPACING ≤ h - margin * 2) :
    (t.generateFrames w h gutter margin).length = t.photoCount ∧
    ∀ r ∈ t.generateFrames w h gutter margin,
      0 ≤ r.width ∧ 0 ≤ r.height ∧
      0 ≤ r.x ∧ 0 ≤ r.y ∧ r.x + r.width ≤ w ∧ r.y + r.height ≤ h := by
  simp only [SPACING] at hm hhalf hht
  simp only [LAYOUT_TEMPLATES, List.mem_cons, List.not_mem_nil, or_false] at ht
  rcases ht with rfl | rfl | rfl | rfl | rfl
  · refine ⟨rfl, ?_⟩
    intro r hr
    simp only [singleFull, List.mem_singleton] at hr
    subst hr
    simp only [templateRect]
    refine ⟨by linarith, by linarith, le_refl 0, le_refl 0, by linarith, by linarith⟩
  · refine ⟨rfl, ?_⟩
    intro r hr
    simp only [twoSideBySide, SPACING, List.mem_cons, List.not_mem_nil, or_false] at hr
    rcases hr with rfl | rfl <;>
      simp only [templateRect] <;>
      refine ⟨by linarith, by linarith, by linarith, by linarith, by linarith,
        by linarith⟩
  · refine ⟨rfl, ?_⟩
    intro r hr
    simp only [threeOneTwo, SPACING, List.mem_cons, List.not_mem_nil, or_false] at hr
    rcases hr with rfl | rfl | rfl <;>
      simp only [templateRect] <;>
      refine ⟨by linarith, by linarith, by linarith, by linarith, by linarith,
        by linarith⟩
  · refine ⟨rfl, ?_⟩
    intro r hr
    simp only [fourGrid, SPACING, List.mem_cons, List.not_mem_nil, or_false] at hr
    rcases hr with rfl | rfl | rfl | rfl <;>
      simp only [templateRect] <;>
      refine ⟨by linarith, by linarith, by linarith, by linarith, by linarith,
        by linarith⟩
  · refine ⟨rfl, ?_⟩
    intro r hr
    simp only [sixMosaic, SPACING, List.mem_cons, List.not_mem_nil, or_false] at hr
    rcases hr with rfl | rfl | rfl | rfl | rfl | rfl <;>
      simp only [templateRect] <;>
      refine ⟨by linarith, by linarith, by linarith, by linarith, by linarith,
        by linarith⟩

/-- C1 witness: the Six Mosaic template on the 5400×3600 canvas with a 75px
gutter and 60px margin yields 6 in-bounds rectangles. -/
theorem C1_witness :
    (sixMosaic.generateFrames 5400 3600 75 60).length = sixMosaic.photoCount ∧
    ∀ r ∈ sixMosaic.generateFrames 5400 3600 75 60,
      0 ≤ r.width ∧ 0 ≤ r.height ∧
      0 ≤ r.x ∧ 0 ≤ r.y ∧ r.x + r.width ≤ 5400 ∧ r.y + r.height ≤ 3600 :=
  C1_template_frames sixMosaic (by simp [LAYOUT_TEMPLATES]) 5400 3600 75 60
    (by norm_num) (by norm_num [SPACING]) (by norm_num [SPACING])
    (by norm_num [SPACING])

/-- Two rectangles do not overlap: they are separated along one axis. -/
def rectsDisjoint (r s : FrameRect) : Prop :=
  r.x + r.width ≤ s.x ∨ s.x + s.width ≤ r.x ∨
  r.y + r.height ≤ s.y ∨ s.y + s.height ≤ r.y

/-- A rectangle lies entirely on one side of the reserved central gutter
strip [w/2 - gutter/2, w/2 + gutter/2]. -/
def avoidsGutterStrip (w gutter : ℚ) (r : FrameRect) : Prop :=
  r.x + r.width ≤ w / 2 - gutter / 2 ∨ w / 2 + gutter / 2 ≤ r.x

set_option maxHeartbeats 2000000 in
/-- C4: for every multi-photo template (photoCount ≥ 2), whenever gutter ≥ 0,
margin ≥ 0 and every generated rectangle has positive width and height, the
rectangles are pairwise non-overlapping and each lies entirely on one side
of the central gutter strip. -/
theorem C4_frames_disjoint_and_avoid_gutter (t : LayoutTemplate)
    (ht : t ∈ LAYOUT_TEMPLATES) (hcount : 2 ≤ t.photoCount)
    (w h gutter margin : ℚ) (hg : 0 ≤ gutter) (hm : 0 ≤ margin)
    (hpos : ∀ r ∈ t.generateFrames w h gutter margin, 0 < r.width ∧ 0 < r.height) :
    (t.generateFrames w h gutter margin).Pairwise rectsDisjoint ∧
    ∀ r ∈ t.generateFrames w h gutter margin, avoidsGutterStrip w gutter r := by
  simp only [LAYOUT_TEMPLATES, List.mem_cons, List.not_mem_nil, or_false] at ht
  rcases ht with rfl | rfl | rfl | rfl | rfl
  · exfalso
    simp only [singleFull] at hcount
    omega
  · simp only [twoSideBySide, SPACING, templateRect, List.mem_cons,
      List.not_mem_nil, or_false, forall_eq_or_imp, forall_eq] at hpos ⊢
    constructor
    · simp only [List.pairwise_cons, List.mem_cons, List.mem_singleton,
        List.not_mem_nil, or_false, forall_eq_or_imp, forall_eq,
        rectsDisjoint, false_implies, implies_true, and_true]
      repeat' apply And.intro
      all_goals
        first
          | exact Or.inl (by linarith)
          | exact Or.inr (Or.inl (by linarith))
          | exact Or.inr (Or.inr (Or.inl (by linarith)))
          | exact Or.inr (Or.inr (Or.inr (by linarith)))
          | exact List.Pairwise.nil
          | trivial
    · simp only [avoidsGutterStrip]
      repeat' apply And.intro
      all_goals
        first
          | exact Or.inl (by linarith)
          | exact Or.inr (by linarith)
  · simp only [threeOneTwo, SPACING, templateRect, List.mem_cons,
      List.not_mem_nil, or_false, forall_eq_or_imp, forall_eq] at hpos ⊢
    constructor
    · simp only [List.pairwise_cons, List.mem_cons, List.mem_singleton,
        List.not_mem_nil, or_false, forall_eq_or_imp, forall_eq,
        rectsDisjoint, false_implies, implies_true, and_true]
      repeat' apply And.intro
      all_goals
        first
          | exact Or.inl (by linarith)
          | exact Or.inr (Or.inl (by linarith))
          | exact Or.inr (Or.inr (Or.inl (by linarith)))
          | exact Or.inr (Or.inr (Or.inr (by linarith)))
          | exact List.Pairwise.nil
          | trivial
    · simp only [avoidsGutterStrip]
      repeat' apply And.intro
      all_goals
        first
          | exact Or.inl (by linarith)
          | exact Or.inr (by linarith)
  · obtain ⟨⟨hw1, hh1⟩, hrest⟩ := by
      simpa only [fourGrid, SPACING, templateRect, List.mem_cons,
        List.not_mem_nil, or_false, forall_eq_or_imp, forall_eq] using hpos
    simp only [fourGrid, SPACING, templateRect, List.mem_cons,
      List.not_mem_nil, or_false, forall_eq_or_imp, forall_eq] at hpos ⊢
    constructor
    · simp only [List.pairwise_cons, List.mem_cons, List.mem_singleton,
        List.not_mem_nil, or_false, forall_eq_or_imp, forall_eq,
        rectsDisjoint, false_implies, implies_true, and_true]
      repeat' apply And.intro
      all_goals
        first
          | exact Or.inl (by linarith)
          | exact Or.inr (Or.inl (by linarith))
          | exact Or.inr (Or.inr (Or.inl (by linarith)))
          | exact Or.inr (Or.inr (Or.inr (by linarith)))
          | exact List.Pairwise.nil
          | trivial
    · simp only [avoidsGutterStrip]
      repeat' apply And.intro
      all_goals
        first
          | exact Or.inl (by linarith)
          | exact Or.inr (by linarith)
  · obtain ⟨⟨hw1, hh1⟩, hrest⟩ := by
      simpa only [sixMosaic, SPACING, templateRect, List.mem_cons,
        List.not_mem_nil, or_false, forall_eq_or_imp, forall_eq] using hpos
    simp only [sixMosaic, SPACING, templateRect, List.mem_cons,
      List.not_mem_nil, or_false, forall_eq_or_imp, forall_eq] at hpos ⊢
    constructor
    · simp only [List.pairwise_cons, List.mem_cons, List.mem_singleton,
        List.not_mem_nil, or_false, forall_eq_or_imp, forall_eq,
        rectsDisjoint, false_implies, implies_true, and_true]
      repeat' apply And.intro
      all_goals
        first
          | exact Or.inl (by linarith)
          | exact Or.inr (Or.inl (by linarith))
          | exact Or.inr (Or.inr (Or.inl (by linarith)))
          | exact Or.inr (Or.inr (Or.inr (by linarith)))
          | exact List.Pairwise.nil
          | trivial
    · simp only [avoidsGutterStrip]
      repeat' apply And.intro
      all_goals
        first
          | exact Or.inl (by linarith)
          | exact Or.inr (by linarith)

/-- C4 witness: the Four Grid template at canvas 5400×3600, gutter 75,
margin 60 has positive rectangles that are pairwise disjoint and avoid the
gutter strip. -/
theorem C4_witness :
    (fourGrid.generateFrames 5400 3600 75 60).Pairwise rectsDisjoint ∧
    ∀ r ∈ fourGrid.generateFrames 5400 3600 75 60,
      avoidsGutterStrip 5400 75 r :=
  C4_frames_disjoint_and_avoid_gutter fourGrid (by simp [LAYOUT_TEMPLATES])
    (by norm_num [fourGrid]) 5400 3600 75 60 (by norm_num) (by norm_num)
    (by
      intro r hr
      simp only [fourGrid, SPACING, templateRect, List.mem_cons,
        List.not_mem_nil, or_false] at hr
      rcases hr with rfl | rfl | rfl | rfl <;> constructor <;> norm_num)

/-- C5: for every template, when fewer photos than photoCount are supplied,
generateFramesForLayout returns exactly photos.length frames (the template
rectangles are truncated), and the frame at each index carries the photoId of
the photo at the same index (both sides none beyond the photo count). -/
theorem C5_truncates_to_photo_count (fresh : ℕ → String) (t : LayoutTemplate)
    (ht : t ∈ LAYOUT_TEMPLATES) (photos : List Photo) (w h g m : ℚ)
    (hlen : photos.length < t.photoCount) :
    (generateFramesForLayout fresh t photos w h g m).length = photos.length ∧
    ∀ j : ℕ,
      ((generateFramesForLayout fresh t photos w h g m).get? j).map PhotoFrame.photoId
        = (photos.get? j).map Photo.id := by
  refine ⟨?_, fun j =>
    generateFramesForLayout_photoId fresh t ht photos w h g m (le_of_lt hlen) j⟩
  rw [generateFramesForLayout_length fresh t ht photos w h g m]
  omega

/-- C5 witness: one photo in the two-photo template yields one frame,
carrying that photo's id. -/
theorem C5_witness :
    (generateFramesForLayout (fun _ => "frame-id") twoSideBySide
        [⟨"p1", "a1", "f.jpg", 100, 100, "thumb", "2026"⟩] 1000 800 50 60).length = 1 ∧
    ∀ j : ℕ,
      ((generateFramesForLayout (fun _ => "frame-id") twoSideBySide
          [⟨"p1", "a1", "f.jpg", 100, 100, "thumb", "2026"⟩] 1000 800 50 60).get? j).map
          PhotoFrame.photoId
        = (([⟨"p1", "a1", "f.jpg", 100, 100, "thumb", "2026"⟩] : List Photo).get? j).map
            Photo.id :=
  C5_truncates_to_photo_count (fun _ => "frame-id") twoSideBySide
    (by simp [LAYOUT_TEMPLATES]) [⟨"p1", "a1", "f.jpg", 100, 100, "thumb", "2026"⟩]
    1000 800 50 60 (by simp [twoSideBySide])

/-- C6: for a non-empty photo list and chunk size p ≥ 1, autoGenerateSpreads
returns exactly ⌈photos.length / p⌉ spreads in chunk order; spread i is the
layout of the consecutive chunk photos[i*p .. min((i+1)*p, length)-1] under
the template chosen by getLayoutForPhotoCount of the chunk size, and its
frame count is min(chunk.length, that template's photoCount). -/
theorem C6_auto_generate_spreads (fresh : ℕ → String) (photos : List Photo)
    (p : ℕ) (album : Album) (hne : photos ≠ []) (hp : 1 ≤ p) :
    (autoGenerateSpreads fresh photos p album).length
        = (photos.length + p - 1) / p ∧
    ∀ i : ℕ, i < (autoGenerateSpreads fresh photos p album).length →
      ((autoGenerateSpreads fresh photos p album).get? i).map GeneratedSpread.frames
        = some (generateFramesForLayout fresh
            (getLayoutForPhotoCount (((photos.drop (i * p)).take p).length : ℤ))
            ((photos.drop (i * p)).take p)
            ((getCanvasDimensions album).1 : ℚ) ((getCanvasDimensions album).2 : ℚ)
            ((getGutterPixels album : ℤ) : ℚ)
            ((jsRound (album.dpi * (2 / 10)) : ℤ) : ℚ)) ∧
      ((autoGenerateSpreads fresh photos p album).get? i).map
          (fun s => s.frames.length)
        = some (min ((photos.drop (i * p)).take p).length
            (getLayoutForPhotoCount
              (((photos.drop (i * p)).take p).length : ℤ)).photoCount) := by
  have hunfold : autoGenerateSpreads fresh photos p album
      = (chunksAux p photos.length photos).map
          (fun spreadPhotos =>
            { frames := generateFramesForLayout fresh
                (getLayoutForPhotoCount (spreadPhotos.length : ℤ)) spreadPhotos
                ((getCanvasDimensions album).1 : ℚ) ((getCanvasDimensions album).2 : ℚ)
                ((getGutterPixels album : ℤ) : ℚ)
                ((jsRound (album.dpi * (2 / 10)) : ℤ) : ℚ) }) := rfl
  constructor
  · rw [hunfold, List.length_map,
      chunksAux_length p hp photos.length photos le_rfl]
  · intro i hi
    have hi2 : i < (chunksAux p photos.length photos).length := by
      rw [hunfold, List.length_map] at hi
      exact hi
    have hget := chunksAux_get? p hp photos.length photos i le_rfl hi2
    have hres : (autoGenerateSpreads fresh photos p album).get? i
        = some ⟨generateFramesForLayout fresh
            (getLayoutForPhotoCount (((photos.drop (i * p)).take p).length : ℤ))
            ((photos.drop (i * p)).take p)
            ((getCanvasDimensions album).1 : ℚ) ((getCanvasDimensions album).2 : ℚ)
            ((getGutterPixels album : ℤ) : ℚ)
            ((jsRound (album.dpi * (2 / 10)) : ℤ) : ℚ)⟩ := by
      rw [hunfold, List.get?_map, hget]
      rfl
    refine ⟨by rw [hres]; rfl, ?_⟩
    rw [hres]
    have hcnt := generateFramesForLayout_length fresh
      (getLayoutForPhotoCount (((photos.drop (i * p)).take p).length : ℤ))
      (getLayout_mem (((photos.drop (i * p)).take p).length : ℤ))
      ((photos.drop (i * p)).take p)
      ((getCanvasDimensions album).1 : ℚ) ((getCanvasDimensions album).2 : ℚ)
      ((getGutterPixels album : ℤ) : ℚ)
      ((jsRound (album.dpi * (2 / 10)) : ℤ) : ℚ)
    simp only [Option.map_some']
    exact congrArg some hcnt

/-- Sample 12×18in, 300 dpi album with a 0.25in gutter, for the C6 witness. -/
def sampleAlbum : Album :=
  ⟨"alb", "My Album", "c", "u", ⟨"12x18", "12×18", 18, 12, true⟩, 300,
   ⟨true, 1 / 4⟩, []⟩

/-- Four sample photos for the C6 witness. -/
def samplePhotos : List Photo :=
  [⟨"p1", "a1", "1.jpg", 10, 10, "t", "c"⟩,
   ⟨"p2", "a1", "2.jpg", 10, 10, "t", "c"⟩,
   ⟨"p3", "a1", "3.jpg", 10, 10, "t", "c"⟩,
   ⟨"p4", "a1", "4.jpg", 10, 10, "t", "c"⟩]

/-- C6 witness: four photos with photosPerSpread 4 on a 12×18in, 300 dpi,
0.25in-gutter album form a single spread. -/
theorem C6_witness :
    (autoGenerateSpreads (fun _ => "frame-id") samplePhotos 4 sampleAlbum).length
      = 1 :=
  (C6_auto_generate_spreads (fun _ => "frame-id") samplePhotos 4 sampleAlbum
    (by simp [samplePhotos]) (by norm_num)).1

/-- C8: while exporting n ≥ 1 spreads the reported progress values are
non-decreasing, lie in [0, 100], include 100·(i+1)/n after the i-th spread
completes for every i < n, and end at 100; for n = 3 the distinct values are
0, 100/3, 200/3, 100 which round (to one decimal) to 0, 33.3, 66.7, 100. -/
theorem C8_export_progress (n : ℕ) (hn : 1 ≤ n) :
    List.Chain' (· ≤ ·) (exportProgressSequence n) ∧
    (∀ x ∈ exportProgressSequence n, 0 ≤ x ∧ x ≤ 100) ∧
    (∀ i : ℕ, i < n → ((i : ℚ) + 1) / n * 100 ∈ exportProgressSequence n) ∧
    (exportProgressSequence n).getLast? = some 100 ∧
    (exportProgressSequence 3).dedup = [0, 100 / 3, 200 / 3, 100] ∧
    jsRound (10 * (100 / 3)) = 333 ∧ jsRound (10 * (200 / 3)) = 667 := by
  have e3 : exportProgressSequence 3
      = [0, 0, 100 / 3, 100 / 3, 200 / 3, 200 / 3, 100] := by
    norm_num [exportProgressSequence, exportEventsAux]
  refine ⟨?_, ?_, ?_, ?_, ?_, ?_, ?_⟩
  · show List.Chain (· ≤ ·) (0 : ℚ) (exportEventsAux n n 0)
    have hch := exportEventsAux_chain n n 0
    simpa using hch
  · intro x hx
    rcases List.mem_cons.mp hx with rfl | hx2
    · exact ⟨le_refl 0, by norm_num⟩
    · exact exportEventsAux_bounds n n 0 x hx2
  · intro i hi
    exact List.mem_cons_of_mem _
      (exportEventsAux_reach n n 0 i (Nat.zero_le i) hi (by omega))
  · obtain ⟨l, hl⟩ := exportEventsAux_concat n n 0 (by omega) (by omega)
    rw [exportProgressSequence, hl,
      show (0 : ℚ) :: (l ++ [100]) = (0 :: l) ++ [100] from rfl]
    exact List.getLast?_concat _
  · rw [e3]
    rw [List.dedup_cons_of_mem (by norm_num),
      List.dedup_cons_of_not_mem (by norm_num),
      List.dedup_cons_of_mem (by norm_num),
      List.dedup_cons_of_not_mem (by norm_num),
      List.dedup_cons_of_mem (by norm_num),
      List.dedup_cons_of_not_mem (by norm_num),
      List.dedup_cons_of_not_mem (by norm_num)]
    rfl
  · show ⌊(10 : ℚ) * (100 / 3) + 1 / 2⌋ = 333
    norm_num
  · show ⌊(10 : ℚ) * (200 / 3) + 1 / 2⌋ = 667
    norm_num

/-- C8 witness: the progress sequence for a three-spread export, with all
properties instantiated at n = 3. -/
theorem C8_witness :
    List.Chain' (· ≤ ·) (exportProgressSequence 3) ∧
    (∀ x ∈ exportProgressSequence 3, 0 ≤ x ∧ x ≤ 100) ∧
    (∀ i : ℕ, i < 3 → ((i : ℚ) + 1) / 3 * 100 ∈ exportProgressSequence 3) ∧
    (exportProgressSequence 3).getLast? = some 100 ∧
    (exportProgressSequence 3).dedup = [0, 100 / 3, 200 / 3, 100] ∧
    jsRound (10 * (100 / 3)) = 333 ∧ jsRound (10 * (200 / 3)) = 667 := by
  have h := C8_export_progress 3 (by norm_num)
  exact_mod_cast h

/-- C9 witness: rendering a spread whose first frame has no photo url and
whose second frame resolves to a 1×1 image draws exactly the second frame. -/
theorem C9_witness :
    renderSpread
      (fun pid => if pid = "ok" then some "url" else none)
      (fun _ => some (0 : ℕ)) (fun _ => Except.ok ⟨1, 1⟩)
      [⟨"f1", "missing", 0, 0, 1, 1, 0, 1, 1, 0, 0, 1, false, 0, 0, 0, 0, 0⟩,
       ⟨"f2", "ok", 0, 0, 1, 1, 0, 1, 1, 0, 0, 1, false, 1, 0, 0, 0, 0⟩]
      = [(⟨"f2", "ok", 0, 0, 1, 1, 0, 1, 1, 0, 0, 1, false, 1, 0, 0, 0, 0⟩,
          ⟨⟨1, 1⟩, 0, 0, 1, 1⟩)] := by
  rw [(C9_per_frame_failure_skips_frame
      (fun pid => if pid = "ok" then some "url" else none)
      (fun _ => some (0 : ℕ)) (fun _ => Except.ok ⟨1, 1⟩)
      [⟨"f1", "missing", 0, 0, 1, 1, 0, 1, 1, 0, 0, 1, false, 0, 0, 0, 0, 0⟩,
       ⟨"f2", "ok", 0, 0, 1, 1, 0, 1, 1, 0, 0, 1, false, 1, 0, 0, 0, 0⟩]).1]
  simp only [frameDraw, coverFit, List.filterMap_cons, List.filterMap_nil,
    show "url".isEmpty = false from rfl]
  norm_num
  simp [show "url".isEmpty = false from rfl]

end AlbumStudio
